import Mathlib

/-!
Verification development for the Project Roadmap Builder repository.

The repository is a browser-based roadmap editor: a document holds a title,
a description and an ordered list of stages; the app offers stage editing,
drag reordering, a bounded snapshot history with single-step undo, a JSON
text editor synchronised with the document, an AI bulk-draft replacement,
persistent-storage startup loading, and two SVG path-layout engines
(a serpentine single-row engine and a multi-row boustrophedon engine).

This file is a shallow embedding of that code: React state updates become
explicit state-passing functions, JSON.parse results become an inductive
Json value (a parse failure is represented by Option.none), and the
Math.random identifier source becomes an explicit id parameter.
-/

namespace Roadmap

/-! ## Data model (src/types.ts) -/

/-- One milestone record, from the ProjectStage interface in types.ts. -/
structure ProjectStage where
  id : String
  title : String
  description : String
  color : String
deriving DecidableEq

/-- Orientation flag from the PathType enum in types.ts. -/
inductive PathType where
  | VALLEY
  | PEAK
deriving DecidableEq

/-- The editable document, from the RoadmapData interface in types.ts. -/
structure RoadmapData where
  title : String
  description : String
  stages : List ProjectStage
deriving DecidableEq

/-! ## Constants (src/constants.ts, given as src/unnamed/part_002) -/

/-- The fixed color palette THEME_COLORS. -/
def THEME_COLORS : List String :=
  ["#f43f5e", "#10b981", "#8b5cf6", "#f97316", "#0ea5e9", "#d946ef", "#eab308"]

/-- The five seed stages INITIAL_STAGES. -/
def INITIAL_STAGES : List ProjectStage :=
  [ { id := "1", title := "Brief",
      description := "Initial consultation and project requirements gathering phase to define core objectives.",
      color := "#f43f5e" },
    { id := "2", title := "Sketch",
      description := "Rapid prototyping and low-fidelity visual concepts to explore structural layout.",
      color := "#10b981" },
    { id := "3", title := "Solution",
      description := "Defining technical architectures and choosing the right stack for the implementation.",
      color := "#8b5cf6" },
    { id := "4", title := "Design",
      description := "High-fidelity UI/UX design with focus on aesthetics, accessibility, and user flows.",
      color := "#f97316" },
    { id := "5", title := "Revision",
      description := "Iteration based on stakeholder feedback and rigorous quality assurance testing.",
      color := "#0ea5e9" } ]

/-- The built-in default document DEFAULT_ROADMAP from App.tsx. -/
def DEFAULT_ROADMAP : RoadmapData :=
  { title := "Roadmap Visionary",
    description := "Visualize your project journey with precision. Add stages manually or let AI draft your entire strategy.",
    stages := INITIAL_STAGES }

/-! ## JSON values

JSON.parse output is modelled by an inductive value type; a raw text that
fails to parse is modelled as Option.none at the call sites that parse.
Numbers are irrelevant to every claim and are modelled as integers. -/

/-- Parsed JSON value. Object fields keep insertion order, as JS objects do. -/
inductive Json where
  | null
  | bool (b : Bool)
  | num (n : Int)
  | str (s : String)
  | arr (items : List Json)
  | obj (fields : List (String × Json))

mutual

/-- Structural equality test on parsed JSON values (deriving cannot handle
the nested lists, so the decision procedure is written out). -/
def Json.decEq : (a b : Json) → Decidable (a = b)
  | .null, .null => isTrue rfl
  | .bool a, .bool b =>
      match instDecidableEqBool a b with
      | isTrue h => isTrue (by rw [h])
      | isFalse h => isFalse (fun e => h (Json.bool.inj e))
  | .num a, .num b =>
      match Int.instDecidableEq a b with
      | isTrue h => isTrue (by rw [h])
      | isFalse h => isFalse (fun e => h (Json.num.inj e))
  | .str a, .str b =>
      match String.decEq a b with
      | isTrue h => isTrue (by rw [h])
      | isFalse h => isFalse (fun e => h (Json.str.inj e))
  | .arr a, .arr b =>
      match Json.decEqList a b with
      | isTrue h => isTrue (by rw [h])
      | isFalse h => isFalse (fun e => h (Json.arr.inj e))
  | .obj a, .obj b =>
      match Json.decEqFields a b with
      | isTrue h => isTrue (by rw [h])
      | isFalse h => isFalse (fun e => h (Json.obj.inj e))
  | .null, .bool _ => isFalse (fun h => Json.noConfusion h)
  | .null, .num _ => isFalse (fun h => Json.noConfusion h)
  | .null, .str _ => isFalse (fun h => Json.noConfusion h)
  | .null, .arr _ => isFalse (fun h => Json.noConfusion h)
  | .null, .obj _ => isFalse (fun h => Json.noConfusion h)
  | .bool _, .null => isFalse (fun h => Json.noConfusion h)
  | .bool _, .num _ => isFalse (fun h => Json.noConfusion h)
  | .bool _, .str _ => isFalse (fun h => Json.noConfusion h)
  | .bool _, .arr _ => isFalse (fun h => Json.noConfusion h)
  | .bool _, .obj _ => isFalse (fun h => Json.noConfusion h)
  | .num _, .null => isFalse (fun h => Json.noConfusion h)
  | .num _, .bool _ => isFalse (fun h => Json.noConfusion h)
  | .num _, .str _ => isFalse (fun h => Json.noConfusion h)
  | .num _, .arr _ => isFalse (fun h => Json.noConfusion h)
  | .num _, .obj _ => isFalse (fun h => Json.noConfusion h)
  | .str _, .null => isFalse (fun h => Json.noConfusion h)
  | .str _, .bool _ => isFalse (fun h => Json.noConfusion h)
  | .str _, .num _ => isFalse (fun h => Json.noConfusion h)
  | .str _, .arr _ => isFalse (fun h => Json.noConfusion h)
  | .str _, .obj _ => isFalse (fun h => Json.noConfusion h)
  | .arr _, .null => isFalse (fun h => Json.noConfusion h)
  | .arr _, .bool _ => isFalse (fun h => Json.noConfusion h)
  | .arr _, .num _ => isFalse (fun h => Json.noConfusion h)
  | .arr _, .str _ => isFalse (fun h => Json.noConfusion h)
  | .arr _, .obj _ => isFalse (fun h => Json.noConfusion h)
  | .obj _, .null => isFalse (fun h => Json.noConfusion h)
  | .obj _, .bool _ => isFalse (fun h => Json.noConfusion h)
  | .obj _, .num _ => isFalse (fun h => Json.noConfusion h)
  | .obj _, .str _ => isFalse (fun h => Json.noConfusion h)
  | .obj _, .arr _ => isFalse (fun h => Json.noConfusion h)

/-- Equality decision for JSON array item lists. -/
def Json.decEqList : (a b : List Json) → Decidable (a = b)
  | [], [] => isTrue rfl
  | [], _ :: _ => isFalse (fun h => List.noConfusion h)
  | _ :: _, [] => isFalse (fun h => List.noConfusion h)
  | a :: as, b :: bs =>
      match Json.decEq a b, Json.decEqList as bs with
      | isTrue h1, isTrue h2 => isTrue (by rw [h1, h2])
      | isFalse h1, _ => isFalse (fun e => h1 (List.head_eq_of_cons_eq e))
      | _, isFalse h2 => isFalse (fun e => h2 (List.tail_eq_of_cons_eq e))

/-- Equality decision for JSON object field lists. -/
def Json.decEqFields : (a b : List (String × Json)) → Decidable (a = b)
  | [], [] => isTrue rfl
  | [], _ :: _ => isFalse (fun h => List.noConfusion h)
  | _ :: _, [] => isFalse (fun h => List.noConfusion h)
  | (k1, v1) :: as, (k2, v2) :: bs =>
      match String.decEq k1 k2, Json.decEq v1 v2, Json.decEqFields as bs with
      | isTrue hk, isTrue hv, isTrue ht => isTrue (by rw [hk, hv, ht])
      | isFalse hk, _, _ =>
          isFalse (fun e => hk (congrArg Prod.fst (List.head_eq_of_cons_eq e)))
      | _, isFalse hv, _ =>
          isFalse (fun e => hv (congrArg Prod.snd (List.head_eq_of_cons_eq e)))
      | _, _, isFalse ht => isFalse (fun e => ht (List.tail_eq_of_cons_eq e))

end

instance : DecidableEq Json := Json.decEq

/-- Property access on a parsed object, modelling item.key in JS; a missing
key (JS undefined) and access on a non-object both yield none. -/
def Json.lookup : Json → String → Option Json
  | .obj fields, k => fields.lookup k
  | _, _ => none

/-- Reading a string-valued property; JS undefined and non-string values
collapse to the empty string (the claims never depend on that corner). -/
def Json.getStr (j : Json) (k : String) : String :=
  match j.lookup k with
  | some (.str s) => s
  | _ => ""

/-- Array.isArray on a parsed value. -/
def Json.isArr : Json → Bool
  | .arr _ => true
  | _ => false

/-- The per-item schema check in JsonEditor.handleInputChange:
typeof item is object, item is not null, and item.title is a string.
A JS array also has typeof object but never a title property, so only
objects with a string title pass. -/
def isValidStageItem : Json → Bool
  | .obj fields =>
      match fields.lookup "title" with
      | some (.str _) => true
      | _ => false
  | _ => false

/-- Serialization of one stage, with the key order used everywhere the code
builds a stage object literal: id, title, description, color. -/
def stageToJson (s : ProjectStage) : Json :=
  .obj [("id", .str s.id), ("title", .str s.title),
        ("description", .str s.description), ("color", .str s.color)]

/-- Serialization of a whole document, key order title, description, stages. -/
def roadmapToJson (d : RoadmapData) : Json :=
  .obj [("title", .str d.title), ("description", .str d.description),
        ("stages", .arr (d.stages.map stageToJson))]

/-- Reading a parsed JSON item back as a stage record; fields the item does
not carry (JS undefined) collapse to the empty string. -/
def jsonToStage (j : Json) : ProjectStage :=
  { id := j.getStr "id", title := j.getStr "title",
    description := j.getStr "description", color := j.getStr "color" }

/-! ## Application state and history (src/App.tsx) -/

/-- MAX_HISTORY from App.tsx. -/
def MAX_HISTORY : Nat := 30

/-- The two React state cells of App that the claims concern: the current
document (data) and the snapshot history. -/
structure AppState where
  data : RoadmapData
  history : List RoadmapData
deriving DecidableEq

/-- pushToHistory from App.tsx: append a deep copy of the current document,
then drop the oldest entry (slice 1) when the length exceeds MAX_HISTORY.
JSON.parse of JSON.stringify on these records of strings is the identity,
so the deep copy is the value itself in this pure embedding. -/
def pushToHistory (prev : List RoadmapData) (currentState : RoadmapData) : List RoadmapData :=
  let newHistory := prev ++ [currentState]
  if newHistory.length > MAX_HISTORY then newHistory.drop 1 else newHistory

/-- undo from App.tsx: with an empty buffer do nothing, otherwise pop the
newest snapshot and make it the current document. -/
def undoOp (st : AppState) : AppState :=
  match st.history.getLast? with
  | none => st
  | some previousState => { data := previousState, history := st.history.dropLast }

/-- The common shape of every snapshotting mutation in App.tsx
(addNewStage, removeStage, handleJsonChange, handleDragStart followed by
the drag edit, generateWithAi): first snapshot the current document with
pushToHistory, then replace the document. -/
def mutateOp (f : RoadmapData → RoadmapData) (st : AppState) : AppState :=
  { data := f st.data, history := pushToHistory st.history st.data }

/-- addNewStage from App.tsx. The Math.random-derived identifier is the
explicit newId argument; the color cycles the palette by the current
stage count. -/
def addNewStage (newId : String) (st : AppState) : AppState :=
  { data := { st.data with stages := (st.data.stages ++
      [ { id := newId,
          title := "New Milestone",
          description := "Describe what happens in this stage of your journey.",
          color := THEME_COLORS.getD (st.data.stages.length % THEME_COLORS.length) "" } ]) },
    history := pushToHistory st.history st.data }

/-- removeStage from App.tsx: snapshot, then keep the stages whose id
differs from the argument. -/
def removeStage (id : String) (st : AppState) : AppState :=
  { data := { st.data with stages := st.data.stages.filter (fun s => s.id ≠ id) },
    history := pushToHistory st.history st.data }

/-- A Partial ProjectStage update object: each field is present or absent. -/
structure StageUpdate where
  id : Option String := none
  title : Option String := none
  description : Option String := none
  color : Option String := none

/-- The object spread merging a stage with a partial update. -/
def applyUpdate (s : ProjectStage) (u : StageUpdate) : ProjectStage :=
  { id := u.id.getD s.id, title := u.title.getD s.title,
    description := u.description.getD s.description, color := u.color.getD s.color }

/-- updateStage from App.tsx: merge the update into the matching stage;
no history snapshot is taken by this operation. -/
def updateStage (id : String) (u : StageUpdate) (st : AppState) : AppState :=
  { st with data := { st.data with stages :=
      (st.data.stages.map (fun s => if s.id = id then applyUpdate s u else s)) } }

/-- handleDragStart from App.tsx: snapshot only; the document is unchanged
until drag-over events arrive. -/
def handleDragStart (st : AppState) : AppState :=
  { st with history := pushToHistory st.history st.data }

/-- handleDragOver from App.tsx: when the dragged index differs from the
hovered index, remove the dragged stage and reinsert it at the hovered
index (a move). An out-of-range dragged index cannot be produced by the
UI and is modelled as a no-op. -/
def handleDragOver (draggedIndex index : Nat) (st : AppState) : AppState :=
  if draggedIndex = index then st
  else
    match st.data.stages[draggedIndex]? with
    | none => st
    | some item =>
        { st with data := { st.data with stages :=
            ((st.data.stages.eraseIdx draggedIndex).insertIdx index item) } }

/-- The React data cell holding the document. It is untyped in JS: it
holds the document record until handleJsonChange stores whatever value it
was handed, after which it holds the parsed bare stage array. -/
inductive DataValue where
  | doc (d : RoadmapData)
  | raw (j : Json)
deriving DecidableEq

/-- handleJsonChange from App.tsx lines 95 to 100, applied to the value
the JsonEditor onChange call hands over: the parsed bare stage array. The
guard compares JSON.stringify of that value with JSON.stringify of the
whole current document; stringify is injective on these values with the
fixed key order, so the guard is structural inequality at the Json level.
When they differ the code pushes one snapshot of the pre-change document
and then stores the new value wholesale with setData(newData); when they
are equal nothing happens. Returns the data cell and the history cell. -/
def handleJsonChange (newData : Json) (st : AppState) : DataValue × List RoadmapData :=
  if newData ≠ roadmapToJson st.data then
    (DataValue.raw newData, pushToHistory st.history st.data)
  else
    (DataValue.doc st.data, st.history)

/-- handleInputChange from src/components/JsonEditor.tsx composed with the
App handleJsonChange above: the raw keystroke text is parsed (none =
JSON.parse threw); a non-array, or an array with an item failing the
schema check, surfaces an error string and changes nothing; a valid array
is handed to handleJsonChange. Returns the data cell, the history cell and
the error cell. -/
def handleInputChange (input : Option Json) (st : AppState) :
    DataValue × List RoadmapData × Option String :=
  match input with
  | none => (DataValue.doc st.data, st.history, some "Invalid JSON syntax")
  | some (.arr items) =>
      if items.all isValidStageItem then
        ((handleJsonChange (Json.arr items) st).1,
          (handleJsonChange (Json.arr items) st).2, none)
      else
        (DataValue.doc st.data, st.history, some "Invalid stage structure.")
  | some _ => (DataValue.doc st.data, st.history, some "Must be a JSON array.")

/-! ## AI draft replacement (generateWithAi in App.tsx) -/

/-- The stage list built from a successful AI response: the stage at output
position index gets the fresh id at that position and the palette color
cycled by output position. -/
def aiStages (freshIds : List String) (items : List Json) : List ProjectStage :=
  items.mapIdx (fun index item =>
    { id := freshIds.getD index "",
      title := item.getStr "title",
      description := item.getStr "description",
      color := THEME_COLORS.getD (index % THEME_COLORS.length) "" })

/-- The prompt.trim() emptiness test: JS trim removes leading and trailing
whitespace, so the trimmed prompt is empty exactly when every character is
whitespace. Modelled on the character list so that it evaluates by kernel
reduction. -/
def jsTrim (s : String) : String :=
  String.mk (((s.data.dropWhile Char.isWhitespace).reverse.dropWhile Char.isWhitespace).reverse)

/-- generateWithAi from App.tsx. A blank prompt returns before any request.
The response argument models the awaited, parsed response text: none covers
a transport error or a JSON.parse failure (both throw before pushToHistory
runs); a parsed non-array throws only at parsedStages.map, after the
snapshot was already pushed. The returned Bool records whether the catch
branch logged the failure (console.error, the only failure report). -/
def generateWithAi (prompt : String) (response : Option Json) (freshIds : List String)
    (st : AppState) : AppState × Bool :=
  if jsTrim prompt = "" then (st, false)
  else
    match response with
    | none => (st, true)
    | some (.arr items) =>
        ({ data := { st.data with stages := aiStages freshIds items },
           history := pushToHistory st.history st.data }, false)
    | some _ =>
        ({ data := st.data, history := pushToHistory st.history st.data }, true)

/-! ## Startup load (the useState initializer in App.tsx) -/

/-- Contents of the persistent storage slot at startup: absent, present but
failing JSON.parse, or present and parsed. -/
inductive StorageSlot where
  | absent
  | unparseable
  | parsed (j : Json)

/-- The startup initializer: absent or unparseable storage falls back to
DEFAULT_ROADMAP; a bare array is merged over the default with the array as
the stage list; any other parsed value is returned as the document as-is,
with no field validation. The result is a Json value because the code
returns the parsed value untouched in the last case. -/
def loadInitial : StorageSlot → Json
  | .absent => roadmapToJson DEFAULT_ROADMAP
  | .unparseable => roadmapToJson DEFAULT_ROADMAP
  | .parsed (.arr items) =>
      .obj [("title", .str DEFAULT_ROADMAP.title),
            ("description", .str DEFAULT_ROADMAP.description),
            ("stages", .arr items)]
  | .parsed j => j

end Roadmap

namespace Roadmap

/-! ## Path layout engines

Two engines appear in the lineage: the serpentine single-row engine
(src/unnamed/part_000) and the multi-row boustrophedon engine
(src/components/Timeline.tsx). Every coordinate both engines produce is an
exact integer: the only fractional literals in the source are 0.5, 0.3 and
0.7, and 0.5 times 450 or 380, 0.3 times 380 and 0.7 times 450 are all
exact in binary64, so integer arithmetic reproduces the JS values and
their template-string rendering verbatim. -/

/-- A per-stage anchor: the marker coordinates and the orientation flag
used to place the label card (isPeak false is a valley). -/
structure Anchor where
  x : Int
  y : Int
  isPeak : Bool
deriving DecidableEq

namespace Serp

/-- STAGE_WIDTH in the serpentine Timeline. -/
def STAGE_WIDTH : Int := 380

/-- HEIGHT in the serpentine Timeline. -/
def HEIGHT : Int := 600

/-- centerY = HEIGHT / 2 in pathData. -/
def centerY : Int := HEIGHT / 2

/-- amplitude in pathData. -/
def amplitude : Int := 150

/-- The two cubic segments pathData emits for slot i: rise or fall from the
centerline at the left slot edge to the anchor height at the slot midpoint,
then mirror back to the centerline at the right edge; control points sit at
30 percent of the slot width from each endpoint. -/
def segStr (i : Nat) : String :=
  let xStart : Int := i * STAGE_WIDTH
  let xEnd : Int := (i + 1) * STAGE_WIDTH
  let xMid : Int := xStart + STAGE_WIDTH / 2
  let isPeak : Bool := i % 2 = 1
  let targetY : Int := if isPeak then centerY - amplitude else centerY + amplitude
  let cp1x : Int := xStart + STAGE_WIDTH * 3 / 10
  let cp1y : Int := if i = 0 then centerY
    else if i % 2 = 0 then centerY - amplitude else centerY + amplitude
  let cp2x : Int := xMid - STAGE_WIDTH * 3 / 10
  let cp2y : Int := targetY
  let cp3x : Int := xMid + STAGE_WIDTH * 3 / 10
  let cp3y : Int := targetY
  let cp4x : Int := xEnd - STAGE_WIDTH * 3 / 10
  " C " ++ toString cp1x ++ " " ++ toString cp1y ++ ", " ++ toString cp2x ++ " "
    ++ toString cp2y ++ ", " ++ toString xMid ++ " " ++ toString targetY
    ++ " C " ++ toString cp3x ++ " " ++ toString cp3y ++ ", " ++ toString cp4x ++ " "
    ++ toString centerY ++ ", " ++ toString xEnd ++ " " ++ toString centerY

/-- pathData from src/unnamed/part_000: move to the centerline at x 0, then
the two cubics per slot; the empty stage list yields the empty string. Only
the number of stages is ever read from the stage list. -/
def pathData (stages : List ProjectStage) : String :=
  if stages.length = 0 then ""
  else (List.range stages.length).foldl (fun d i => d ++ segStr i)
    ("M 0 " ++ toString centerY)

/-- The anchor of slot i, from the marker placement in part_000: x at the
slot midpoint, y below the centerline for even i (valley) and above it for
odd i (peak). -/
def anchor (i : Nat) : Anchor :=
  let x : Int := i * STAGE_WIDTH + STAGE_WIDTH / 2
  let isPeak : Bool := i % 2 = 1
  let y : Int := if isPeak then centerY - amplitude else centerY + amplitude
  { x := x, y := y, isPeak := isPeak }

/-- The per-stage anchor list the marker loop produces. -/
def anchors (stages : List ProjectStage) : List Anchor :=
  (List.range stages.length).map anchor

end Serp

namespace MultiRow

/-- STAGES_PER_ROW in Timeline.tsx. -/
def STAGES_PER_ROW : Nat := 3

/-- STAGE_WIDTH in Timeline.tsx. -/
def STAGE_WIDTH : Int := 450

/-- ROW_HEIGHT in Timeline.tsx. -/
def ROW_HEIGHT : Int := 500

/-- ROAD_OFFSET_Y in Timeline.tsx. -/
def ROAD_OFFSET_Y : Int := 140

/-- HORIZONTAL_PADDING in Timeline.tsx. -/
def HORIZONTAL_PADDING : Int := 100

/-- The getStagePos result record. -/
structure Pos where
  x : Int
  y : Int
  row : Nat
  col : Nat
  isEvenRow : Bool
deriving DecidableEq

/-- getStagePos from Timeline.tsx: row-major slots, left to right on even
rows and right to left on odd rows; col plus 0.5 times 450 is the exact
integer col times 450 plus 225. -/
def getStagePos (i : Nat) : Pos :=
  let row : Nat := i / STAGES_PER_ROW
  let col : Nat := i % STAGES_PER_ROW
  let isEvenRow : Bool := row % 2 = 0
  let x : Int := if isEvenRow
    then (col : Int) * STAGE_WIDTH + STAGE_WIDTH / 2 + HORIZONTAL_PADDING
    else ((STAGES_PER_ROW : Int) - (col : Int)) * STAGE_WIDTH - STAGE_WIDTH / 2
      + HORIZONTAL_PADDING
  let y : Int := (row : Int) * ROW_HEIGHT + ROW_HEIGHT / 2 + ROAD_OFFSET_Y
  { x := x, y := y, row := row, col := col, isEvenRow := isEvenRow }

/-- The cubic segment pathData emits between slot i and slot i + 1: within
a row, a gently curved horizontal with control points half a stage width
toward the travel direction; across rows, a U-turn bulging 70 percent of a
stage width outward. -/
def segStr (i : Nat) : String :=
  let current := getStagePos i
  let next := getStagePos (i + 1)
  if current.row = next.row then
    let cp1x : Int := current.x + (if current.isEvenRow then STAGE_WIDTH / 2 else -(STAGE_WIDTH / 2))
    let cp2x : Int := next.x - (if next.isEvenRow then STAGE_WIDTH / 2 else -(STAGE_WIDTH / 2))
    " C " ++ toString cp1x ++ " " ++ toString current.y ++ ", " ++ toString cp2x ++ " "
      ++ toString next.y ++ ", " ++ toString next.x ++ " " ++ toString next.y
  else
    let bulgeWidth : Int := STAGE_WIDTH * 7 / 10
    let cp1x : Int := current.x + (if current.isEvenRow then bulgeWidth else -bulgeWidth)
    let cp2x : Int := next.x + (if current.isEvenRow then bulgeWidth else -bulgeWidth)
    " C " ++ toString cp1x ++ " " ++ toString current.y ++ ", " ++ toString cp2x ++ " "
      ++ toString next.y ++ ", " ++ toString next.x ++ " " ++ toString next.y

/-- pathData from Timeline.tsx: an entry extension before the first anchor,
a segment per adjacent slot pair, and an exit extension after the last
anchor; the empty stage list yields the empty string. Only the number of
stages is ever read from the stage list. -/
def pathData (stages : List ProjectStage) : String :=
  if stages.length = 0 then ""
  else
    let firstPos := getStagePos 0
    let start := "M " ++ toString (firstPos.x - (if firstPos.isEvenRow then (100 : Int) else -100))
      ++ " " ++ toString firstPos.y
      ++ " L " ++ toString firstPos.x ++ " " ++ toString firstPos.y
    let mid := (List.range (stages.length - 1)).foldl (fun d i => d ++ segStr i) start
    let lastPos := getStagePos (stages.length - 1)
    mid ++ " L " ++ toString (lastPos.x + (if lastPos.isEvenRow then (150 : Int) else -150))
      ++ " " ++ toString lastPos.y

/-- The per-stage anchor list of the marker loop in Timeline.tsx: the
getStagePos coordinates with the card orientation flag isPeak, true on odd
indices. -/
def anchors (stages : List ProjectStage) : List Anchor :=
  (List.range stages.length).map (fun i =>
    { x := (getStagePos i).x, y := (getStagePos i).y, isPeak := i % 2 = 1 })

end MultiRow

end Roadmap

namespace Roadmap

/-! ## Helper lemmas about the history buffer -/

/-- The snapshot just pushed is the newest entry, also when the oldest was
evicted. -/
theorem pushToHistory_getLast? (h : List RoadmapData) (d : RoadmapData) :
    (pushToHistory h d).getLast? = some d := by
  unfold pushToHistory
  by_cases hc : (h ++ [d]).length > MAX_HISTORY
  · simp only [hc, if_pos]
    cases h with
    | nil => simp [MAX_HISTORY] at hc
    | cons x t => simp [List.cons_append, List.getLast?_concat]
  · simp only [hc, if_neg, not_false_iff]
    exact List.getLast?_concat h

/-- Length evolution of one snapshot push: grow by one, or slide when the
bound would be exceeded. -/
theorem pushToHistory_length (h : List RoadmapData) (d : RoadmapData) :
    (pushToHistory h d).length =
      if h.length + 1 > MAX_HISTORY then h.length else h.length + 1 := by
  unfold pushToHistory
  by_cases hc : (h ++ [d]).length > MAX_HISTORY
  · have : h.length + 1 > MAX_HISTORY := by simpa using hc
    simp [hc, this, List.length_drop]
  · have : ¬ h.length + 1 > MAX_HISTORY := by simpa using hc
    simp [hc, this]

/-- Every entry of the buffer after a push was already stored or is the
document just pushed. -/
theorem pushToHistory_mem {h : List RoadmapData} {d x : RoadmapData}
    (hx : x ∈ pushToHistory h d) : x ∈ h ∨ x = d := by
  unfold pushToHistory at hx
  by_cases hc : (h ++ [d]).length > MAX_HISTORY
  · simp only [hc, if_pos] at hx
    have := List.mem_of_mem_drop hx
    simpa using this
  · simp only [hc, if_neg, not_false_iff] at hx
    simpa using hx

/-- undo with an empty buffer returns the state unchanged. -/
theorem undoOp_of_history_nil {st : AppState} (h : st.history = []) : undoOp st = st := by
  unfold undoOp
  rw [h]
  rfl

/-- Iterating undo as many times as the buffer is long empties the buffer. -/
theorem undo_iterate_empties : ∀ (n : Nat) (st : AppState),
    st.history.length ≤ n → (undoOp^[n] st).history = [] := by
  intro n
  induction n with
  | zero =>
      intro st h
      simpa using List.length_eq_zero.mp (Nat.le_zero.mp h)
  | succ n ih =>
      intro st h
      rw [Function.iterate_succ_apply]
      refine ih (undoOp st) ?_
      unfold undoOp
      match hl : st.history.getLast? with
      | none =>
          have : st.history = [] := List.getLast?_eq_none_iff.mp hl
          simp [this]
      | some prev =>
          simp only [List.length_dropLast]
          omega

/-! ## Claim C3 -/

/-- C3: any mutating operation that snapshots the current document D0 and
then replaces it leaves undo able to restore a document equal to D0 (the
deep copy is the value itself in this embedding), and undo on an empty
history buffer is a no-op that keeps the current document. -/
theorem undo_restores_prior_document (st : AppState) (f : RoadmapData → RoadmapData) :
    (undoOp (mutateOp f st)).data = st.data
    ∧ (∀ d : RoadmapData, undoOp { data := d, history := [] } = { data := d, history := [] }) := by
  constructor
  · show (undoOp { data := f st.data, history := pushToHistory st.history st.data }).data = st.data
    unfold undoOp
    simp only [pushToHistory_getLast?]
  · intro d
    exact undoOp_of_history_nil rfl

/-! ## Claim C4 -/

/-- A run of consecutive snapshotting mutations. -/
def applyMutations (fs : List (RoadmapData → RoadmapData)) (st : AppState) : AppState :=
  fs.foldl (fun s f => mutateOp f s) st

/-- History length after a run of snapshotting mutations, capped at the
bound. -/
theorem applyMutations_length : ∀ (fs : List (RoadmapData → RoadmapData)) (st : AppState),
    st.history.length ≤ MAX_HISTORY →
    (applyMutations fs st).history.length = min (st.history.length + fs.length) MAX_HISTORY := by
  intro fs
  induction fs with
  | nil => intro st h; simp [applyMutations]; omega
  | cons f fs ih =>
      intro st h
      show (applyMutations fs (mutateOp f st)).history.length = _
      have hlen : (mutateOp f st).history.length =
          if st.history.length + 1 > MAX_HISTORY then st.history.length
          else st.history.length + 1 := pushToHistory_length st.history st.data
      have hle : (mutateOp f st).history.length ≤ MAX_HISTORY := by
        rw [hlen]; split <;> omega
      rw [ih (mutateOp f st) hle, hlen]
      simp only [List.length_cons]
      split <;> omega

/-- C4: starting from a state within the bound, the history buffer never
holds more than MAX_HISTORY snapshots; after more than MAX_HISTORY
consecutive snapshotting mutations it holds exactly MAX_HISTORY, so undo
succeeds at most MAX_HISTORY times: MAX_HISTORY undos empty the buffer and
every further undo is a no-op. A full buffer slides: the oldest entry is
evicted, the rest shift down and the new snapshot is appended. -/
theorem history_never_exceeds_bound (st : AppState) (fs : List (RoadmapData → RoadmapData))
    (h : st.history.length ≤ MAX_HISTORY) :
    (applyMutations fs st).history.length ≤ MAX_HISTORY
    ∧ (MAX_HISTORY < fs.length → (applyMutations fs st).history.length = MAX_HISTORY)
    ∧ (undoOp^[MAX_HISTORY] (applyMutations fs st)).history = []
    ∧ undoOp (undoOp^[MAX_HISTORY] (applyMutations fs st))
        = undoOp^[MAX_HISTORY] (applyMutations fs st)
    ∧ (st.history.length = MAX_HISTORY →
        pushToHistory st.history st.data = st.history.drop 1 ++ [st.data]) := by
  have hlen := applyMutations_length fs st h
  have h1 : (applyMutations fs st).history.length ≤ MAX_HISTORY := by omega
  refine ⟨h1, ?_, ?_, ?_, ?_⟩
  · intro hgt; omega
  · exact undo_iterate_empties MAX_HISTORY _ h1
  · exact undoOp_of_history_nil (undo_iterate_empties MAX_HISTORY _ h1)
  · intro hfull
    unfold pushToHistory
    have hc : (st.history ++ [st.data]).length > MAX_HISTORY := by
      simp [hfull]
    simp only [hc, if_pos]
    match hh : st.history, hfull with
    | x :: t, _ => rfl

/-- A tiny concrete document and state used to instantiate theorems with
hypotheses at concrete inputs. -/
def exDoc : RoadmapData :=
  { title := "T", description := "Desc",
    stages := [ { id := "1", title := "a", description := "b", color := "#fff" },
                { id := "2", title := "c", description := "d", color := "#000" } ] }

/-- Concrete startup-like state with an empty history buffer. -/
def exSt : AppState := { data := exDoc, history := [] }

/-- Witness for C4 at a concrete state and a run of 31 identity mutations. -/
theorem history_never_exceeds_bound_witness :
    (applyMutations (List.replicate 31 (fun d => d)) exSt).history.length ≤ MAX_HISTORY
    ∧ (MAX_HISTORY < (List.replicate 31 (fun d : RoadmapData => d)).length →
        (applyMutations (List.replicate 31 (fun d => d)) exSt).history.length = MAX_HISTORY)
    ∧ (undoOp^[MAX_HISTORY] (applyMutations (List.replicate 31 (fun d => d)) exSt)).history = []
    ∧ undoOp (undoOp^[MAX_HISTORY] (applyMutations (List.replicate 31 (fun d => d)) exSt))
        = undoOp^[MAX_HISTORY] (applyMutations (List.replicate 31 (fun d => d)) exSt)
    ∧ (exSt.history.length = MAX_HISTORY →
        pushToHistory exSt.history exSt.data = exSt.history.drop 1 ++ [exSt.data]) :=
  history_never_exceeds_bound exSt (List.replicate 31 (fun d => d)) (by decide)

end Roadmap

namespace Roadmap

/-! ## Claim C9 -/

/-- C9 counterexample: calling removeStage twice with the same id is not
equivalent to calling it once on the full application state, because every
call, matching or not, pushes one more history snapshot; at this concrete
state the single call leaves one snapshot and the double call leaves two. -/
theorem remove_twice_state_differs :
    removeStage "1" (removeStage "1" exSt) ≠ removeStage "1" exSt
    ∧ (removeStage "1" (removeStage "1" exSt)).history.length = 2
    ∧ (removeStage "1" exSt).history.length = 1 := by
  refine ⟨?_, by decide, by decide⟩
  intro h
  have := congrArg (fun s => s.history.length) h
  simp at this
  exact absurd this (by decide)

/-- C9 amended: calling removeStage twice with the same id is equivalent to
calling it once as far as the document is concerned: the second call leaves
the document unchanged, no call can raise, and the surviving stages keep
their relative order (the once-removed stage list is a sublist of the
original); only the history buffer additionally records one more snapshot
per call. -/
theorem remove_idempotent_on_document (st : AppState) (id : String) :
    (removeStage id (removeStage id st)).data = (removeStage id st).data
    ∧ (removeStage id st).data.stages.Sublist st.data.stages
    ∧ (removeStage id st).data.title = st.data.title
    ∧ (removeStage id st).data.description = st.data.description := by
  refine ⟨?_, ?_, rfl, rfl⟩
  · have hfilter : ∀ (l : List ProjectStage) (p : ProjectStage → Bool),
        (l.filter p).filter p = l.filter p := by
      intro l p
      rw [List.filter_filter]
      simp only [Bool.and_self]
    simp only [removeStage, hfilter]
  · exact List.filter_sublist st.data.stages

end Roadmap

namespace Roadmap

/-! ## Claim C10 -/

/-- C10: removing an id that matches no stage leaves the document (title,
description and stage list) unchanged, yet still appends one deep-copy
snapshot of the pre-call document to the history buffer as its newest
entry, growing it by one entry or sliding it when full, and a subsequent
undo restores a document equal to the current one. -/
theorem remove_missing_id_frame (st : AppState) (id : String)
    (h : ∀ s ∈ st.data.stages, s.id ≠ id) :
    (removeStage id st).data = st.data
    ∧ (removeStage id st).history = pushToHistory st.history st.data
    ∧ (removeStage id st).history.getLast? = some st.data
    ∧ ((removeStage id st).history.length =
        if st.history.length + 1 > MAX_HISTORY then st.history.length
        else st.history.length + 1)
    ∧ (undoOp (removeStage id st)).data = st.data := by
  have hdata : (removeStage id st).data = st.data := by
    have hfilter : st.data.stages.filter (fun s => decide (s.id ≠ id)) = st.data.stages :=
      List.filter_eq_self.mpr (fun a ha => by simpa using h a ha)
    simp only [removeStage, hfilter]
  refine ⟨hdata, rfl, pushToHistory_getLast? st.history st.data,
    pushToHistory_length st.history st.data, ?_⟩
  show (undoOp { data := (removeStage id st).data,
                 history := pushToHistory st.history st.data }).data = st.data
  unfold undoOp
  simp only [pushToHistory_getLast?]

/-- Witness for C10 at a concrete state and an id matching no stage. -/
theorem remove_missing_id_frame_witness :
    (removeStage "zz" exSt).data = exSt.data
    ∧ (removeStage "zz" exSt).history = pushToHistory exSt.history exSt.data
    ∧ (removeStage "zz" exSt).history.getLast? = some exSt.data
    ∧ ((removeStage "zz" exSt).history.length =
        if exSt.history.length + 1 > MAX_HISTORY then exSt.history.length
        else exSt.history.length + 1)
    ∧ (undoOp (removeStage "zz" exSt)).data = exSt.data :=
  remove_missing_id_frame exSt "zz" (by decide)

/-! ## Claim C1 -/

/-- C1: the geometry both layout engines produce, the path description and
the per-stage anchor list, is a pure function of the number of stages (and
so in particular of the stage count and order): two stage lists of equal
length yield identical geometry whatever their titles, descriptions,
colors or ids, and re-running a layout on the same list yields the same
geometry again. -/
theorem layout_geometry_pure (s1 s2 : List ProjectStage) (h : s1.length = s2.length) :
    Serp.pathData s1 = Serp.pathData s2
    ∧ Serp.anchors s1 = Serp.anchors s2
    ∧ MultiRow.pathData s1 = MultiRow.pathData s2
    ∧ MultiRow.anchors s1 = MultiRow.anchors s2
    ∧ Serp.pathData s1 = Serp.pathData s1
    ∧ MultiRow.pathData s1 = MultiRow.pathData s1 := by
  refine ⟨?_, ?_, ?_, ?_, rfl, rfl⟩
  · unfold Serp.pathData; rw [h]
  · unfold Serp.anchors; rw [h]
  · unfold MultiRow.pathData; rw [h]
  · unfold MultiRow.anchors; rw [h]

/-- Witness for C1: two one-stage documents with entirely different stage
content get identical geometry. -/
theorem layout_geometry_pure_witness :
    Serp.pathData [ { id := "x", title := "Alpha", description := "dA", color := "#111" } ]
      = Serp.pathData [ { id := "y", title := "Beta", description := "dB", color := "#222" } ]
    ∧ Serp.anchors [ { id := "x", title := "Alpha", description := "dA", color := "#111" } ]
      = Serp.anchors [ { id := "y", title := "Beta", description := "dB", color := "#222" } ]
    ∧ MultiRow.pathData [ { id := "x", title := "Alpha", description := "dA", color := "#111" } ]
      = MultiRow.pathData [ { id := "y", title := "Beta", description := "dB", color := "#222" } ]
    ∧ MultiRow.anchors [ { id := "x", title := "Alpha", description := "dA", color := "#111" } ]
      = MultiRow.anchors [ { id := "y", title := "Beta", description := "dB", color := "#222" } ]
    ∧ Serp.pathData [ { id := "x", title := "Alpha", description := "dA", color := "#111" } ]
      = Serp.pathData [ { id := "x", title := "Alpha", description := "dA", color := "#111" } ]
    ∧ MultiRow.pathData [ { id := "x", title := "Alpha", description := "dA", color := "#111" } ]
      = MultiRow.pathData [ { id := "x", title := "Alpha", description := "dA", color := "#111" } ] :=
  layout_geometry_pure _ _ rfl

/-! ## Claim C2 -/

/-- C2: in the canonical serpentine layout, the anchor of stage i sits at
x equal to i times the stage width plus half the stage width; even i is a
valley (isPeak false) anchored at the centerline plus the amplitude, odd i
is a peak (isPeak true) anchored at the centerline minus the amplitude;
consecutive anchors alternate orientation and index 0 is a valley. -/
theorem serp_anchor_formula (stages : List ProjectStage) (i : Nat) (h : i < stages.length) :
    ∃ a : Anchor, (Serp.anchors stages)[i]? = some a
      ∧ a.x = (i : Int) * Serp.STAGE_WIDTH + Serp.STAGE_WIDTH / 2
      ∧ (i % 2 = 0 → a.isPeak = false ∧ a.y = Serp.centerY + Serp.amplitude)
      ∧ (i % 2 = 1 → a.isPeak = true ∧ a.y = Serp.centerY - Serp.amplitude)
      ∧ (∀ b : Anchor, (Serp.anchors stages)[i + 1]? = some b → b.isPeak = !a.isPeak)
      ∧ (Serp.anchors stages)[0]?.map Anchor.isPeak = some false := by
  refine ⟨Serp.anchor i, ?_, ?_, ?_, ?_, ?_, ?_⟩
  · unfold Serp.anchors
    rw [List.getElem?_map, List.getElem?_range h]
    rfl
  · rfl
  · intro h2
    unfold Serp.anchor
    simp only [h2]
    exact ⟨rfl, rfl⟩
  · intro h2
    unfold Serp.anchor
    simp only [h2]
    exact ⟨rfl, rfl⟩
  · intro b hb
    unfold Serp.anchors at hb
    rw [List.getElem?_map] at hb
    have hb2 : (List.range stages.length)[i + 1]? = some (i + 1) ∨
        (List.range stages.length)[i + 1]? = none := by
      rcases Nat.lt_or_ge (i + 1) stages.length with hlt | hge
      · exact Or.inl (List.getElem?_range hlt)
      · exact Or.inr (by simpa using List.getElem?_eq_none (by simpa using hge))
    rcases hb2 with h2 | h2
    · rw [h2] at hb
      have hb3 : Serp.anchor (i + 1) = b := by simpa using hb
      rw [← hb3]
      unfold Serp.anchor
      rcases Nat.mod_two_eq_zero_or_one i with hp | hp
      · have hp1 : (i + 1) % 2 = 1 := by omega
        simp [hp, hp1]
      · have hp1 : (i + 1) % 2 = 0 := by omega
        simp [hp, hp1]
    · rw [h2] at hb
      simp at hb
  · unfold Serp.anchors
    have h0 : 0 < stages.length := Nat.lt_of_le_of_lt (Nat.zero_le i) h
    rw [List.getElem?_map, List.getElem?_range h0]
    rfl

/-- Witness for C2 at a concrete two-stage list and index 1. -/
theorem serp_anchor_formula_witness :
    ∃ a : Anchor, (Serp.anchors exDoc.stages)[1]? = some a
      ∧ a.x = (1 : Int) * Serp.STAGE_WIDTH + Serp.STAGE_WIDTH / 2
      ∧ (1 % 2 = 0 → a.isPeak = false ∧ a.y = Serp.centerY + Serp.amplitude)
      ∧ (1 % 2 = 1 → a.isPeak = true ∧ a.y = Serp.centerY - Serp.amplitude)
      ∧ (∀ b : Anchor, (Serp.anchors exDoc.stages)[1 + 1]? = some b → b.isPeak = !a.isPeak)
      ∧ (Serp.anchors exDoc.stages)[0]?.map Anchor.isPeak = some false :=
  serp_anchor_formula exDoc.stages 1 (by decide)

end Roadmap

namespace Roadmap

/-! ## Claim C6 -/

/-- A bare array is never serialization-equal to the whole document, so
the guard of handleJsonChange always fires from a document-shaped state. -/
theorem arr_ne_roadmapToJson (items : List Json) (d : RoadmapData) :
    Json.arr items ≠ roadmapToJson d := by
  intro h
  rw [roadmapToJson] at h
  exact Json.noConfusion h

/-- C6 counterexample: a valid text-editor input whose parsed value is
deeply equal to the current stage list (it is exactly the serialization of
the current stages). The claim says such an input causes no replacement
and no snapshot, but the code compares the bare array against the
serialized whole document, which always differ, so it pushes a snapshot
(the history grows from 0 to 1 entries) and stores the array wholesale. -/
theorem json_equal_input_still_snapshots :
    handleInputChange (some (Json.arr (exDoc.stages.map stageToJson))) exSt
      = (DataValue.raw (Json.arr (exDoc.stages.map stageToJson)),
         pushToHistory exSt.history exSt.data, none)
    ∧ (handleInputChange (some (Json.arr (exDoc.stages.map stageToJson))) exSt).2.1.length = 1
    ∧ exSt.history.length = 0 := by
  exact ⟨by decide, by decide, rfl⟩

/-- C6 amended: a parse failure or a failed schema check (not an array, or
an item without a string title) surfaces an error string and leaves the
data and history cells untouched; a valid array always differs, as a
serialized value, from the serialized whole document, so every valid input
pushes exactly one history snapshot of the pre-change document and stores
the parsed array wholesale as the new data value, whether or not it is
deeply equal to the current stage list. -/
theorem json_editor_sync (input : Option Json) (st : AppState) :
    (input = none → handleInputChange input st
        = (DataValue.doc st.data, st.history, some "Invalid JSON syntax"))
    ∧ (∀ j : Json, input = some j → j.isArr = false →
        handleInputChange input st
          = (DataValue.doc st.data, st.history, some "Must be a JSON array."))
    ∧ (∀ items : List Json, input = some (Json.arr items) →
        items.all isValidStageItem = false →
        handleInputChange input st
          = (DataValue.doc st.data, st.history, some "Invalid stage structure."))
    ∧ (∀ items : List Json, input = some (Json.arr items) →
        items.all isValidStageItem = true →
        Json.arr items ≠ roadmapToJson st.data
        ∧ handleInputChange input st
            = (DataValue.raw (Json.arr items), pushToHistory st.history st.data, none)) := by
  refine ⟨?_, ?_, ?_, ?_⟩
  · intro h
    rw [h]
    rfl
  · intro j hj harr
    rw [hj]
    cases j with
    | arr items => simp [Json.isArr] at harr
    | null => rfl
    | bool b => rfl
    | num n => rfl
    | str s => rfl
    | obj fields => rfl
  · intro items hin hvalid
    rw [hin]
    show (if items.all isValidStageItem = true
      then ((handleJsonChange (Json.arr items) st).1,
        (handleJsonChange (Json.arr items) st).2, none)
      else (DataValue.doc st.data, st.history, some "Invalid stage structure.")) = _
    rw [hvalid]
    rfl
  · intro items hin hvalid
    refine ⟨arr_ne_roadmapToJson items st.data, ?_⟩
    rw [hin]
    show (if items.all isValidStageItem = true
      then ((handleJsonChange (Json.arr items) st).1,
        (handleJsonChange (Json.arr items) st).2, none)
      else (DataValue.doc st.data, st.history, some "Invalid stage structure.")) = _
    rw [hvalid]
    simp only [if_pos]
    unfold handleJsonChange
    rw [if_pos (arr_ne_roadmapToJson items st.data)]

/-- Witness for C6 at a concrete valid one-item input and concrete state. -/
theorem json_editor_sync_witness :
    Json.arr [Json.obj [("title", Json.str "t")]] ≠ roadmapToJson exSt.data
    ∧ handleInputChange (some (Json.arr [Json.obj [("title", Json.str "t")]])) exSt
        = (DataValue.raw (Json.arr [Json.obj [("title", Json.str "t")]]),
           pushToHistory exSt.history exSt.data, none) :=
  (json_editor_sync (some (Json.arr [Json.obj [("title", Json.str "t")]])) exSt).2.2.2
    [Json.obj [("title", Json.str "t")]] rfl (by decide)

/-! ## Claim C8 -/

/-- C8 counterexample: a stored value that parses to an object with every
field missing is taken as the document as-is and is not the built-in
default, contradicting the fall-back-on-missing-fields part of the claim. -/
theorem startup_missing_fields_kept :
    loadInitial (.parsed (.obj [])) = Json.obj []
    ∧ Json.obj [] ≠ roadmapToJson DEFAULT_ROADMAP := by
  refine ⟨rfl, ?_⟩
  intro h
  rw [roadmapToJson] at h
  exact List.noConfusion (Json.obj.inj h)

/-- C8 amended: an absent or unparseable storage slot falls back to the
built-in default document (fixed title and description plus the five seed
stages); a slot parsing to a bare array becomes the stage list merged with
the default title and description; any other parsed value, fields missing
or not, is taken as the document unchanged, with no validation. -/
theorem startup_load_spec :
    loadInitial .absent = roadmapToJson DEFAULT_ROADMAP
    ∧ loadInitial .unparseable = roadmapToJson DEFAULT_ROADMAP
    ∧ (∀ items : List Json, loadInitial (.parsed (.arr items)) =
        Json.obj [("title", .str DEFAULT_ROADMAP.title),
                  ("description", .str DEFAULT_ROADMAP.description),
                  ("stages", .arr items)])
    ∧ (∀ j : Json, j.isArr = false → loadInitial (.parsed j) = j) := by
  refine ⟨rfl, rfl, fun items => rfl, ?_⟩
  intro j harr
  cases j with
  | arr items => simp [Json.isArr] at harr
  | null => rfl
  | bool b => rfl
  | num n => rfl
  | str s => rfl
  | obj fields => rfl

/-- Witness for C8 at a concrete non-array stored value. -/
theorem startup_load_spec_witness :
    loadInitial (.parsed (.num 5)) = Json.num 5 :=
  startup_load_spec.2.2.2 (.num 5) rfl

end Roadmap

namespace Roadmap

/-! ## Claim C7 -/

/-- C7 counterexample: a blank prompt is a failure case the claim says is
reported to the user, but generateWithAi returns before issuing a request,
with no report at all (the Bool component records whether the only failure
report, the console.error in the catch branch, ran). -/
theorem ai_empty_prompt_silent :
    generateWithAi "" none [] exSt = (exSt, false) := by
  decide

/-- C7 amended: with a non-blank prompt, a successful array response
replaces the entire stage list so that the pair at output position k
becomes a stage with the fresh id at position k and the palette color
cycled by k (output position, not prior document length), preserves the
document title and description, and is preceded by exactly one history
snapshot of the pre-replacement document, making the bulk change a single
undoable step; a transport or parse failure leaves the whole state
unchanged and is reported; a parsed non-array response leaves the document
unchanged and is reported (its snapshot, pushed before the replacement
throws, restores the same document); a blank prompt changes nothing and
reports nothing. -/
theorem ai_generate_spec (prompt : String) (resp : Option Json) (ids : List String)
    (st : AppState) :
    (jsTrim prompt = "" → generateWithAi prompt resp ids st = (st, false))
    ∧ (jsTrim prompt ≠ "" → resp = none → generateWithAi prompt resp ids st = (st, true))
    ∧ (∀ items : List Json, jsTrim prompt ≠ "" → resp = some (Json.arr items) →
        generateWithAi prompt resp ids st =
          ({ data := { st.data with stages := aiStages ids items },
             history := pushToHistory st.history st.data }, false)
        ∧ (generateWithAi prompt resp ids st).1.data.title = st.data.title
        ∧ (generateWithAi prompt resp ids st).1.data.description = st.data.description
        ∧ (∀ k : Nat, (aiStages ids items)[k]? =
            items[k]?.map (fun item =>
              { id := ids.getD k "",
                title := item.getStr "title",
                description := item.getStr "description",
                color := THEME_COLORS.getD (k % THEME_COLORS.length) "" }))
        ∧ (undoOp (generateWithAi prompt resp ids st).1).data = st.data)
    ∧ (∀ j : Json, jsTrim prompt ≠ "" → resp = some j → j.isArr = false →
        generateWithAi prompt resp ids st =
          ({ data := st.data, history := pushToHistory st.history st.data }, true)
        ∧ (undoOp (generateWithAi prompt resp ids st).1).data = st.data) := by
  refine ⟨?_, ?_, ?_, ?_⟩
  · intro h
    unfold generateWithAi
    rw [if_pos h]
  · intro h hn
    unfold generateWithAi
    rw [if_neg h, hn]
  · intro items h hr
    have hmain : generateWithAi prompt resp ids st =
        ({ data := { st.data with stages := aiStages ids items },
           history := pushToHistory st.history st.data }, false) := by
      unfold generateWithAi
      rw [if_neg h, hr]
    refine ⟨hmain, by rw [hmain], by rw [hmain], ?_, ?_⟩
    · intro k
      unfold aiStages
      rw [List.getElem?_mapIdx]
    · rw [hmain]
      show (undoOp { data := _, history := pushToHistory st.history st.data }).data = st.data
      unfold undoOp
      simp only [pushToHistory_getLast?]
  · intro j h hr harr
    have hmain : generateWithAi prompt resp ids st =
        ({ data := st.data, history := pushToHistory st.history st.data }, true) := by
      unfold generateWithAi
      rw [if_neg h, hr]
      cases j with
      | arr items => simp [Json.isArr] at harr
      | null => rfl
      | bool b => rfl
      | num n => rfl
      | str s => rfl
      | obj fields => rfl
    refine ⟨hmain, ?_⟩
    rw [hmain]
    show (undoOp { data := st.data, history := pushToHistory st.history st.data }).data = st.data
    unfold undoOp
    simp only [pushToHistory_getLast?]

/-- The concrete two-pair AI response items used by the C7 witness. -/
def aiWitnessItems : List Json :=
  [ Json.obj [("title", .str "Plan"), ("description", .str "x")],
    Json.obj [("title", .str "Build"), ("description", .str "y")] ]

/-- Witness for C7: a concrete successful two-pair response at a concrete
state, with a non-blank prompt and two fresh ids. -/
theorem ai_generate_spec_witness :
    generateWithAi "p" (some (Json.arr aiWitnessItems)) ["i1", "i2"] exSt =
      ({ data := { exSt.data with stages := aiStages ["i1", "i2"] aiWitnessItems },
         history := pushToHistory exSt.history exSt.data }, false)
    ∧ (generateWithAi "p" (some (Json.arr aiWitnessItems)) ["i1", "i2"] exSt).1.data.title
        = exSt.data.title
    ∧ (generateWithAi "p" (some (Json.arr aiWitnessItems)) ["i1", "i2"] exSt).1.data.description
        = exSt.data.description
    ∧ (∀ k : Nat, (aiStages ["i1", "i2"] aiWitnessItems)[k]? =
        aiWitnessItems[k]?.map (fun item =>
          { id := ["i1", "i2"].getD k "",
            title := item.getStr "title",
            description := item.getStr "description",
            color := THEME_COLORS.getD (k % THEME_COLORS.length) "" }))
    ∧ (undoOp (generateWithAi "p" (some (Json.arr aiWitnessItems)) ["i1", "i2"] exSt).1).data
        = exSt.data :=
  (ai_generate_spec "p" (some (Json.arr aiWitnessItems)) ["i1", "i2"] exSt).2.2.1
    aiWitnessItems (by decide) rfl

end Roadmap

namespace Roadmap

/-! ## Claim C5 -/

/-- The id list of a document's stages. -/
def stageIds (d : RoadmapData) : List String :=
  d.stages.map (fun s => s.id)

/-- The id-distinctness invariant, strengthened to cover every stored
snapshot so that undo preserves it. -/
def GoodState (st : AppState) : Prop :=
  (stageIds st.data).Nodup ∧ ∀ d ∈ st.history, (stageIds d).Nodup

/-- Pushing a snapshot of a good state keeps every stored snapshot
id-distinct. -/
theorem goodState_push {st : AppState} (h : GoodState st) :
    ∀ d ∈ pushToHistory st.history st.data, (stageIds d).Nodup := by
  intro d hd
  rcases pushToHistory_mem hd with hmem | heq
  · exact h.2 d hmem
  · rw [heq]
    exact h.1

/-- Putting the element at position n back in front of the remainder is a
permutation of the original list. -/
theorem cons_eraseIdx_perm {α : Type} : ∀ (l : List α) (n : Nat) (x : α),
    l[n]? = some x → (x :: l.eraseIdx n).Perm l := by
  intro l
  induction l with
  | nil => intro n x h; simp at h
  | cons a t ih =>
      intro n x h
      cases n with
      | zero =>
          have hx : a = x := by simpa using h
          rw [← hx]
          simp [List.eraseIdx]
      | succ n =>
          have h2 : t[n]? = some x := by simpa using h
          have herase : (a :: t).eraseIdx (n + 1) = a :: t.eraseIdx n := rfl
          rw [herase]
          exact (List.Perm.swap a x (t.eraseIdx n)).trans ((ih n x h2).cons a)

/-- addNewStage with an id not already present keeps ids distinct. -/
theorem nodup_addNewStage {st : AppState} (h1 : (stageIds st.data).Nodup)
    {newId : String} (hnew : newId ∉ stageIds st.data) :
    (stageIds (addNewStage newId st).data).Nodup := by
  unfold addNewStage stageIds
  rw [List.map_append, List.nodup_append]
  refine ⟨h1, by simp, ?_⟩
  intro a ha hb
  simp only [List.map_cons, List.map_nil, List.mem_singleton] at hb
  rw [hb] at ha
  exact hnew ha

/-- removeStage keeps ids distinct. -/
theorem nodup_removeStage {st : AppState} (h1 : (stageIds st.data).Nodup) (id : String) :
    (stageIds (removeStage id st).data).Nodup := by
  unfold removeStage stageIds
  exact List.Nodup.sublist ((List.filter_sublist _).map _) h1

/-- updateStage with an update that does not touch the id field keeps the
id list unchanged, hence distinct. -/
theorem nodup_updateStage {st : AppState} (h1 : (stageIds st.data).Nodup)
    (id : String) {u : StageUpdate} (hu : u.id = none) :
    (stageIds (updateStage id u st).data).Nodup := by
  unfold updateStage stageIds
  rw [List.map_map]
  have hcong : ∀ a ∈ st.data.stages,
      ((fun s => s.id) ∘ fun s => if s.id = id then applyUpdate s u else s) a
        = (fun s => s.id) a := by
    intro a _
    by_cases hc : a.id = id
    · simp [hc, applyUpdate, hu]
    · simp [hc]
  rw [List.map_congr_left hcong]
  exact h1

/-- Drag reordering permutes the stages (or leaves them alone), so the ids
stay distinct. -/
theorem nodup_handleDragOver {st : AppState} (h1 : (stageIds st.data).Nodup)
    (draggedIndex index : Nat) :
    (stageIds (handleDragOver draggedIndex index st).data).Nodup := by
  unfold handleDragOver
  split
  · exact h1
  · split
    · exact h1
    · next item hget =>
        have h1m : (st.data.stages.map (fun s => s.id)).Nodup := h1
        show ((((st.data.stages.eraseIdx draggedIndex).insertIdx index item).map
          (fun s => s.id))).Nodup
        by_cases hlen : index ≤ (st.data.stages.eraseIdx draggedIndex).length
        · have hperm : ((st.data.stages.eraseIdx draggedIndex).insertIdx index item).Perm
              st.data.stages :=
            (List.perm_insertIdx item _ hlen).trans
              (cons_eraseIdx_perm st.data.stages draggedIndex item hget)
          exact ((hperm.map (fun s => s.id)).nodup_iff).mpr h1m
        · rw [List.insertIdx_of_length_lt _ _ _ (by omega)]
          exact List.Nodup.sublist ((List.eraseIdx_sublist _ _).map _) h1m

/-- One safe editor step: the public operations of the claim, with the text
editor replacement left out, the freshly generated ids assumed fresh for
addNewStage and pairwise distinct for the AI bulk replacement, and stage
updates not touching the id field (no call site ever updates ids). -/
inductive SafeStep : AppState → AppState → Prop where
  | add (st : AppState) (newId : String) (h : newId ∉ stageIds st.data) :
      SafeStep st (addNewStage newId st)
  | remove (st : AppState) (id : String) :
      SafeStep st (removeStage id st)
  | update (st : AppState) (id : String) (u : StageUpdate) (h : u.id = none) :
      SafeStep st (updateStage id u st)
  | dragStart (st : AppState) :
      SafeStep st (handleDragStart st)
  | dragOver (st : AppState) (draggedIndex index : Nat) :
      SafeStep st (handleDragOver draggedIndex index st)
  | aiDraft (st : AppState) (prompt : String) (resp : Option Json) (freshIds : List String)
      (h : ∀ items : List Json, resp = some (Json.arr items) →
        ((aiStages freshIds items).map (fun s => s.id)).Nodup) :
      SafeStep st (generateWithAi prompt resp freshIds st).1
  | undo (st : AppState) :
      SafeStep st (undoOp st)

/-- Every safe step preserves the id-distinctness invariant. -/
theorem goodState_step {st st' : AppState} (h : GoodState st) (hs : SafeStep st st') :
    GoodState st' := by
  cases hs with
  | add newId hnew =>
      exact ⟨nodup_addNewStage h.1 hnew, goodState_push h⟩
  | remove id =>
      exact ⟨nodup_removeStage h.1 id, goodState_push h⟩
  | update id u hu =>
      exact ⟨nodup_updateStage h.1 id hu, h.2⟩
  | dragStart =>
      exact ⟨h.1, goodState_push h⟩
  | dragOver draggedIndex index =>
      refine ⟨nodup_handleDragOver h.1 draggedIndex index, ?_⟩
      have hh : (handleDragOver draggedIndex index st).history = st.history := by
        unfold handleDragOver
        split
        · rfl
        · split <;> rfl
      rw [hh]
      exact h.2
  | aiDraft prompt resp freshIds hids =>
      unfold generateWithAi
      by_cases hblank : jsTrim prompt = ""
      · rw [if_pos hblank]
        exact h
      · rw [if_neg hblank]
        cases resp with
        | none => exact h
        | some j =>
            cases j with
            | arr items =>
                exact ⟨by simpa [stageIds] using hids items rfl, goodState_push h⟩
            | null => exact ⟨h.1, goodState_push h⟩
            | bool b => exact ⟨h.1, goodState_push h⟩
            | num n => exact ⟨h.1, goodState_push h⟩
            | str s => exact ⟨h.1, goodState_push h⟩
            | obj fields => exact ⟨h.1, goodState_push h⟩
  | undo =>
      unfold undoOp
      match hl : st.history.getLast? with
      | none => exact h
      | some prev =>
          refine ⟨h.2 prev (List.mem_of_mem_getLast? hl), ?_⟩
          intro d hd
          exact h.2 d (List.mem_of_mem_dropLast hd)

/-- C5 amended: from any state whose document and stored snapshots have
pairwise-distinct stage ids (the startup default state in particular),
every run of addNewStage with a fresh id, removeStage, updateStage not
touching ids, drag reordering, AI replacement with pairwise-distinct fresh
ids, and undo keeps the document's stage ids pairwise distinct. The
text-editor replacement is excluded: it does not preserve the invariant,
as the counterexample shows. -/
theorem safe_ops_preserve_distinct_ids (st st' : AppState)
    (h0 : (st.data.stages.map (fun s => s.id)).Nodup)
    (hh : ∀ d ∈ st.history, (d.stages.map (fun s => s.id)).Nodup)
    (h : Relation.ReflTransGen SafeStep st st') :
    (st'.data.stages.map (fun s => s.id)).Nodup := by
  have hgood : GoodState st' := by
    induction h with
    | refl => exact ⟨h0, hh⟩
    | tail hab hbc ih => exact goodState_step ih hbc
  exact hgood.1

/-- Witness for the amended C5: one fresh-id addNewStage from the startup
default state keeps ids distinct. -/
theorem safe_ops_preserve_distinct_ids_witness :
    ((addNewStage "m1" { data := DEFAULT_ROADMAP, history := [] }).data.stages.map
      (fun s => s.id)).Nodup :=
  safe_ops_preserve_distinct_ids { data := DEFAULT_ROADMAP, history := [] } _
    (by decide) (by simp)
    (Relation.ReflTransGen.single (SafeStep.add _ "m1" (by decide)))

/-- The duplicated-id text-editor input of the C5 counterexample: two items
that pass the schema validation (objects with a string title) but share the
id value a. -/
def dupItems : List Json :=
  [ Json.obj [("id", .str "a"), ("title", .str "x")],
    Json.obj [("id", .str "a"), ("title", .str "y")] ]

/-- C5 counterexample: starting from the startup state of an absent storage
slot (the default document, whose five seed ids are distinct), one
text-editor keystroke parsing to dupItems passes validation and the data
cell is replaced wholesale by that array, so the reached document is the
two-stage list whose stage ids are a, a: not pairwise distinct. -/
theorem duplicate_ids_reachable :
    (handleInputChange (some (Json.arr dupItems))
        { data := DEFAULT_ROADMAP, history := [] }).1 = DataValue.raw (Json.arr dupItems)
    ∧ dupItems.map (fun j => j.getStr "id") = ["a", "a"]
    ∧ ¬ (dupItems.map (fun j => j.getStr "id")).Nodup := by
  exact ⟨by decide, by decide, by decide⟩

end Roadmap
